import Mathlib

/-!
Shallow embedding of the session-synchronization core of the
Image-meta-attribute-ai frontend, translated from
src/frontend/src/contexts/ChatContext.tsx (the SessionCoordinator of the
spec) together with the connectivity boolean supplied by the socket
context.

Modelling conventions:
- React state hooks become fields of a ChatState record; each handler is a
  pure function from ChatState to ChatState (plus emitted outbound socket
  events and timer operations, which the source performs as side effects).
- The wall-clock ISO timestamp attached to every message by the source
  (new Date().toISOString()) is elided: it is nondeterministic and no
  claim concerns it.
- The mutable timer ref (responseTimeoutRef) is a field holding an
  optional handle; clearTimeout / setTimeout calls are recorded as
  explicit TimerOp values so that "attempts to clear a timer" is
  observable.
- localStorage under the key current_image_path is the currentImagePath
  field. Note that no code in the repository ever writes this key; it is
  only read (sendMessage) and removed (clearImage).
- JavaScript Math.round((loaded / total) * 100) is modelled exactly over
  the rationals as (200 * loaded + total) / (2 * total) in natural-number
  division (round-half-up, matching Math.round for nonnegative input).
-/

/-- The sender tag of a chat message: the source uses the string values
'user' and 'ai'. -/
inductive Sender where
  | user
  | ai
deriving DecidableEq, Repr

/-- MessageType from the source, minus the elided timestamp. -/
structure MessageType where
  content : String
  sender : Sender
deriving DecidableEq, Repr

/-- The file_info object inside a successful upload response
(response.metadata.file_info). -/
structure FileInfo where
  file_path : String
deriving DecidableEq, Repr

/-- response.metadata of the upload HTTP response. -/
structure UploadMetadata where
  file_info : FileInfo
deriving DecidableEq, Repr

/-- The parsed JSON body of the upload HTTP response. success mirrors
response.success; metadata is optional (absent field = none); error is
the optional error text read in the non-2xx branch, where the source
treats the empty string as falsy. -/
structure UploadResponse where
  success : Bool
  metadata : Option UploadMetadata
  error : Option String
deriving DecidableEq, Repr

/-- The coordinator state: the React state hooks of ChatProvider plus the
timer ref and the localStorage slot it reads. -/
structure ChatState where
  messages : List MessageType
  imageUrl : String
  isProcessing : Bool
  uploadProgress : Nat
  responseTimeout : Option Nat
  currentImagePath : Option String
deriving DecidableEq, Repr

/-- The state at application load: all hooks at their initial values. -/
def initialState : ChatState :=
  { messages := [], imageUrl := "", isProcessing := false,
    uploadProgress := 0, responseTimeout := none, currentImagePath := none }

/-- Outbound socket events produced via sendToSocket. -/
inductive OutEvent where
  | message (content : String) (image_path : Option String)
  | analyze_image (image_path : String)
  | clear_image
deriving DecidableEq, Repr

/-- Timer side effects: clearTimeout on a handle, or setTimeout arming a
fresh handle with a delay in milliseconds. -/
inductive TimerOp where
  | clearTimeout (handle : Nat)
  | setTimeout (handle : Nat) (delayMs : Nat)
deriving DecidableEq, Repr

/-- The idiom repeated in the handlers:
if (responseTimeoutRef.current) \x7b clearTimeout(ref.current); ref.current = null \x7d. -/
def clearPendingTimeout (s : ChatState) : ChatState × List TimerOp :=
  match s.responseTimeout with
  | some h => ({ s with responseTimeout := none }, [TimerOp.clearTimeout h])
  | none => (s, [])

/-- The socket disconnect handler (ChatContext.tsx lines 44-50): release
the lock and clear any pending timeout. -/
def onDisconnect (s : ChatState) : ChatState × List TimerOp :=
  clearPendingTimeout { s with isProcessing := false }

/-- The inbound message handler (lines 53-63): append an ai message with
the payload content (the role field of the payload is never consulted),
release the lock, clear any pending timeout. -/
def onSocketMessage (role : String) (content : String) (s : ChatState) :
    ChatState × List TimerOp :=
  let _ := role
  clearPendingTimeout
    { s with
      messages := s.messages ++ [{ content := content, sender := Sender.ai }],
      isProcessing := false }

/-- The typing handler (lines 66-68): copy the status into isProcessing;
nothing else. -/
def onTyping (status : Bool) (s : ChatState) : ChatState :=
  { s with isProcessing := status }

/-- The metadata_result handler (lines 71-93): append the analysis text
when truthy (nonempty), else the canned success message; release the
lock; set uploadProgress to 100; clear any pending timeout. -/
def onMetadataResult (analysis : Option String) (s : ChatState) :
    ChatState × List TimerOp :=
  let content :=
    match analysis with
    | some a =>
        if a = "" then
          "Image processed successfully! I can now answer questions about it."
        else a
    | none => "Image processed successfully! I can now answer questions about it."
  clearPendingTimeout
    { s with
      messages := s.messages ++ [{ content := content, sender := Sender.ai }],
      isProcessing := false,
      uploadProgress := 100 }

/-- The inbound error handler (lines 96-106): append an ai message with
the Error: prefix, release the lock, clear any pending timeout. -/
def onSocketError (message : String) (s : ChatState) : ChatState × List TimerOp :=
  clearPendingTimeout
    { s with
      messages := s.messages ++
        [{ content := "Error: " ++ message, sender := Sender.ai }],
      isProcessing := false }

/-- sendMessage (lines 121-159). isConnected is the socket context's
connectivity boolean; freshHandle is the handle window.setTimeout would
return for the newly armed 60000 ms timer. Returns the new state, the
outbound events and the timer operations, in program order. -/
def sendMessage (content : String) (isConnected : Bool) (freshHandle : Nat)
    (s : ChatState) : ChatState × List OutEvent × List TimerOp :=
  if s.imageUrl = "" then (s, [], [])
  else
    let s1 : ChatState := { s with
      messages := s.messages ++ [{ content := content, sender := Sender.user }] }
    if isConnected = false then
      (({ s1 with
        messages := s1.messages ++
          [{ content := "There is a problem processing your request, please try again later",
             sender := Sender.ai }] } : ChatState), [], [])
    else
      let s2 : ChatState := { s1 with isProcessing := true }
      let cleared := clearPendingTimeout s2
      let s3 : ChatState := { cleared.1 with responseTimeout := some freshHandle }
      (s3, [OutEvent.message content s.currentImagePath],
        cleared.2 ++ [TimerOp.setTimeout freshHandle 60000])

/-- The callback of the 60000 ms timer armed by sendMessage (lines
149-153): release the lock, append the timeout message, null the handle. -/
def onResponseTimeout (s : ChatState) : ChatState :=
  { s with
    isProcessing := false,
    messages := s.messages ++
      [{ content := "Server timeout. Please try again.", sender := Sender.ai }],
    responseTimeout := none }

/-- The synchronous part of uploadImage (lines 161-192, up to sending the
request): set the preview URL, reset progress to 0; if disconnected,
append the informational message and stop; if connected, take the lock.
The returned boolean records whether the HTTP request is issued. -/
def uploadImage (isConnected : Bool) (objectUrl : String) (s : ChatState) :
    ChatState × Bool :=
  let s1 := { s with imageUrl := objectUrl, uploadProgress := 0 }
  if isConnected = false then
    ({ s1 with
      messages := s1.messages ++
        [{ content := "Socket connection not established. Image preview is available, but you cannot communicate with the AI.",
           sender := Sender.ai }] }, false)
  else
    ({ s1 with isProcessing := true }, true)

/-- Math.round((loaded / total) * 100) over the rationals: round-half-up,
agreeing with JavaScript Math.round for nonnegative arguments. -/
def jsRoundPct (loaded total : Nat) : Nat :=
  (200 * loaded + total) / (2 * total)

/-- The xhr.upload progress listener (lines 197-202): when the length is
computable, overwrite uploadProgress with the rounded percentage. -/
def onUploadProgress (lengthComputable : Bool) (loaded total : Nat)
    (s : ChatState) : ChatState :=
  if lengthComputable then
    { s with uploadProgress := jsRoundPct loaded total }
  else s

/-- The xhr load listener (lines 205-228). body is the parsed JSON of
xhr.responseText (none = empty body). On a 2xx status with a successful
payload carrying metadata, emit analyze_image with the server path and
change nothing else; on a 2xx status otherwise the source does nothing;
on a non-2xx status append the error message (server text if truthy,
else Upload failed) and release the lock. -/
def onUploadLoad (status : Nat) (body : Option UploadResponse) (s : ChatState) :
    ChatState × List OutEvent :=
  if 200 ≤ status ∧ status < 300 then
    match body with
    | some r =>
        if r.success then
          match r.metadata with
          | some m => (s, [OutEvent.analyze_image m.file_info.file_path])
          | none => (s, [])
        else (s, [])
    | none => (s, [])
  else
    let errorMsg :=
      match body with
      | some r =>
          match r.error with
          | some e => if e = "" then "Upload failed" else e
          | none => "Upload failed"
      | none => "Upload failed"
    ({ s with
      messages := s.messages ++
        [{ content := "Error uploading image: " ++ errorMsg, sender := Sender.ai }],
      isProcessing := false }, [])

/-- The xhr network-error listener (lines 231-238): append the generic
retry message and release the lock. -/
def onUploadNetworkError (s : ChatState) : ChatState :=
  { s with
    messages := s.messages ++
      [{ content := "Error uploading image. Please try again later.",
         sender := Sender.ai }],
    isProcessing := false }

/-- clearImage (lines 256-266): clear the preview URL, remove the stored
image path, emit clear_image only when connected, clear the history. The
source touches neither isProcessing nor the timer ref. -/
def clearImage (isConnected : Bool) (s : ChatState) : ChatState × List OutEvent :=
  ({ s with imageUrl := "", currentImagePath := none, messages := [] },
    if isConnected then [OutEvent.clear_image] else [])

/-- The invariant of claim C7: the timer handle is non-null only while
the processing lock is held. -/
def TimerInv (s : ChatState) : Prop :=
  s.responseTimeout ≠ none → s.isProcessing = true

/-- Claim C9: the disconnect handler releases the processing lock and
cancels any pending timeout, and every other session field is unchanged:
the conversation history, the image reference, the upload progress and
the stored image path are not cleared or modified. -/
theorem disconnect_releases_lock_and_frames_rest (s : ChatState) :
    (onDisconnect s).1.isProcessing = false ∧
    (onDisconnect s).1.responseTimeout = none ∧
    (onDisconnect s).1.messages = s.messages ∧
    (onDisconnect s).1.imageUrl = s.imageUrl ∧
    (onDisconnect s).1.uploadProgress = s.uploadProgress ∧
    (onDisconnect s).1.currentImagePath = s.currentImagePath := by
  unfold onDisconnect clearPendingTimeout
  cases s.responseTimeout <;> simp

/-- Claim C10: an inbound message event appends exactly one message,
whose sender is always the assistant tag ai and whose content is the
payload content; the role field never influences the result. -/
theorem message_event_ignores_role (role1 role2 content : String) (s : ChatState) :
    onSocketMessage role1 content s = onSocketMessage role2 content s ∧
    (onSocketMessage role1 content s).1.messages =
      s.messages ++ [{ content := content, sender := Sender.ai }] := by
  unfold onSocketMessage clearPendingTimeout
  cases s.responseTimeout <;> simp

/-- Claim C5: when the question timer fires, exactly one timeout
assistant message is appended, the lock is released and the handle is
nulled; a message event arriving afterwards still appends its content as
an additional assistant message and performs no clearTimeout call. -/
theorem timeout_fires_then_late_message (role content : String) (s : ChatState) :
    (onResponseTimeout s).messages =
      s.messages ++
        [{ content := "Server timeout. Please try again.", sender := Sender.ai }] ∧
    (onResponseTimeout s).isProcessing = false ∧
    (onResponseTimeout s).responseTimeout = none ∧
    (onSocketMessage role content (onResponseTimeout s)).1.messages =
      (onResponseTimeout s).messages ++
        [{ content := content, sender := Sender.ai }] ∧
    (onSocketMessage role content (onResponseTimeout s)).2 = [] := by
  unfold onResponseTimeout onSocketMessage clearPendingTimeout
  simp

/-- Claim C4: ask(text) issued while disconnected with an active image
appends exactly two messages, the user message then the explanatory
assistant error message; no timer operation is performed, the handle is
unchanged, and the lock stays false. -/
theorem ask_disconnected_two_messages (content : String) (freshHandle : Nat)
    (s : ChatState) (himg : s.imageUrl ≠ "") (hlock : s.isProcessing = false) :
    (sendMessage content false freshHandle s).1.messages =
      s.messages ++
        [{ content := content, sender := Sender.user },
         { content := "There is a problem processing your request, please try again later",
           sender := Sender.ai }] ∧
    (sendMessage content false freshHandle s).2.2 = [] ∧
    (sendMessage content false freshHandle s).1.responseTimeout = s.responseTimeout ∧
    (sendMessage content false freshHandle s).1.isProcessing = false := by
  unfold sendMessage
  simp [himg, hlock]

/-- Witness for claim C4 at a concrete state with an active image and a
released lock. -/
theorem ask_disconnected_two_messages_witness :
    (sendMessage "what is this?" false 0
        { initialState with imageUrl := "blob:p" }).1.messages =
      ({ initialState with imageUrl := "blob:p" } : ChatState).messages ++
        [{ content := "what is this?", sender := Sender.user },
         { content := "There is a problem processing your request, please try again later",
           sender := Sender.ai }] ∧
    (sendMessage "what is this?" false 0
        { initialState with imageUrl := "blob:p" }).2.2 = [] ∧
    (sendMessage "what is this?" false 0
        { initialState with imageUrl := "blob:p" }).1.responseTimeout =
      ({ initialState with imageUrl := "blob:p" } : ChatState).responseTimeout ∧
    (sendMessage "what is this?" false 0
        { initialState with imageUrl := "blob:p" }).1.isProcessing = false :=
  ask_disconnected_two_messages "what is this?" 0
    { initialState with imageUrl := "blob:p" } (by decide) (by decide)

/-- Counterexample to claim C2: after a successful upload whose server
path is /tmp/x.jpg, a connected ask emits a message event whose
image_path is none, not the path of the most recently uploaded image —
no code in the repository ever writes the current_image_path storage
slot that sendMessage reads. -/
theorem ask_image_path_counterexample :
    (sendMessage "what is this?" true 1
        (onUploadLoad 200
          (some { success := true,
                  metadata := some { file_info := { file_path := "/tmp/x.jpg" } },
                  error := none })
          (uploadImage true "blob:p" initialState).1).1).2.1 =
      [OutEvent.message "what is this?" none] ∧
    OutEvent.message "what is this?" (none : Option String) ≠
      OutEvent.message "what is this?" (some "/tmp/x.jpg") := by
  decide

/-- Amended claim C2: a connected ask with an active image sets the
processing lock, arms exactly one 60000 ms timer (clearing a previous
handle first when one exists), and sends a message event carrying the
text and the stored current_image_path value — which the repository
never writes, so it is not in general the most recently uploaded image's
path. -/
theorem ask_connected_arms_timer (content : String) (freshHandle : Nat)
    (s : ChatState) (himg : s.imageUrl ≠ "") :
    (sendMessage content true freshHandle s).1.isProcessing = true ∧
    (sendMessage content true freshHandle s).1.responseTimeout = some freshHandle ∧
    (sendMessage content true freshHandle s).2.1 =
      [OutEvent.message content s.currentImagePath] ∧
    (sendMessage content true freshHandle s).2.2 =
      (match s.responseTimeout with
        | some h => [TimerOp.clearTimeout h]
        | none => []) ++ [TimerOp.setTimeout freshHandle 60000] := by
  unfold sendMessage clearPendingTimeout
  cases hr : s.responseTimeout <;> simp [himg, hr]

/-- Witness for the amended claim C2 at a concrete state. -/
theorem ask_connected_arms_timer_witness :
    (sendMessage "hi" true 5 { initialState with imageUrl := "blob:p" }).1.isProcessing = true ∧
    (sendMessage "hi" true 5 { initialState with imageUrl := "blob:p" }).1.responseTimeout = some 5 ∧
    (sendMessage "hi" true 5 { initialState with imageUrl := "blob:p" }).2.1 =
      [OutEvent.message "hi"
        ({ initialState with imageUrl := "blob:p" } : ChatState).currentImagePath] ∧
    (sendMessage "hi" true 5 { initialState with imageUrl := "blob:p" }).2.2 =
      (match ({ initialState with imageUrl := "blob:p" } : ChatState).responseTimeout with
        | some h => [TimerOp.clearTimeout h]
        | none => []) ++ [TimerOp.setTimeout 5 60000] :=
  ask_connected_arms_timer "hi" 5 { initialState with imageUrl := "blob:p" } (by decide)

/-- Claim C3: on a 2xx upload response with an application-success
payload, the coordinator leaves the state untouched (no message
appended, lock still held, uploadProgress at its last value) and emits
exactly one analyze_image event with the server-provided file path; the
lock is released by a subsequent metadata_result event. -/
theorem upload_success_keeps_lock_emits_analyze (status : Nat) (path : String)
    (err : Option String) (analysis : Option String) (s : ChatState)
    (h2xx : 200 ≤ status ∧ status < 300) (hlock : s.isProcessing = true) :
    (onUploadLoad status
        (some { success := true,
                metadata := some { file_info := { file_path := path } },
                error := err }) s).1 = s ∧
    (onUploadLoad status
        (some { success := true,
                metadata := some { file_info := { file_path := path } },
                error := err }) s).1.messages = s.messages ∧
    (onUploadLoad status
        (some { success := true,
                metadata := some { file_info := { file_path := path } },
                error := err }) s).1.isProcessing = true ∧
    (onUploadLoad status
        (some { success := true,
                metadata := some { file_info := { file_path := path } },
                error := err }) s).1.uploadProgress = s.uploadProgress ∧
    (onUploadLoad status
        (some { success := true,
                metadata := some { file_info := { file_path := path } },
                error := err }) s).2 = [OutEvent.analyze_image path] ∧
    (onMetadataResult analysis
        (onUploadLoad status
          (some { success := true,
                  metadata := some { file_info := { file_path := path } },
                  error := err }) s).1).1.isProcessing = false := by
  unfold onUploadLoad onMetadataResult clearPendingTimeout
  cases hr : s.responseTimeout <;> simp [h2xx, hlock, hr]

/-- Witness for claim C3 at a concrete locked state and a 200 response. -/
theorem upload_success_keeps_lock_emits_analyze_witness :
    (onUploadLoad 200
        (some { success := true,
                metadata := some { file_info := { file_path := "/tmp/x.jpg" } },
                error := none })
        { initialState with imageUrl := "blob:p", isProcessing := true }).1 =
      { initialState with imageUrl := "blob:p", isProcessing := true } ∧
    (onUploadLoad 200
        (some { success := true,
                metadata := some { file_info := { file_path := "/tmp/x.jpg" } },
                error := none })
        { initialState with imageUrl := "blob:p", isProcessing := true }).1.messages =
      ({ initialState with imageUrl := "blob:p", isProcessing := true } : ChatState).messages ∧
    (onUploadLoad 200
        (some { success := true,
                metadata := some { file_info := { file_path := "/tmp/x.jpg" } },
                error := none })
        { initialState with imageUrl := "blob:p", isProcessing := true }).1.isProcessing = true ∧
    (onUploadLoad 200
        (some { success := true,
                metadata := some { file_info := { file_path := "/tmp/x.jpg" } },
                error := none })
        { initialState with imageUrl := "blob:p", isProcessing := true }).1.uploadProgress =
      ({ initialState with imageUrl := "blob:p", isProcessing := true } : ChatState).uploadProgress ∧
    (onUploadLoad 200
        (some { success := true,
                metadata := some { file_info := { file_path := "/tmp/x.jpg" } },
                error := none })
        { initialState with imageUrl := "blob:p", isProcessing := true }).2 =
      [OutEvent.analyze_image "/tmp/x.jpg"] ∧
    (onMetadataResult (some "a nice photo")
        (onUploadLoad 200
          (some { success := true,
                  metadata := some { file_info := { file_path := "/tmp/x.jpg" } },
                  error := none })
          { initialState with imageUrl := "blob:p", isProcessing := true }).1).1.isProcessing =
      false :=
  upload_success_keeps_lock_emits_analyze 200 "/tmp/x.jpg" none (some "a nice photo")
    { initialState with imageUrl := "blob:p", isProcessing := true }
    (by decide) (by decide)

/-- Claim C1 is violated by the code: on a 2xx response whose payload
indicates application-level failure (success false, no metadata), the
load handler appends no message, emits nothing, and leaves the
processing lock held — the error branch of the handler only runs for
non-2xx statuses, so the claimed error message and lock release never
happen. -/
theorem upload_app_failure_leaves_lock_stuck :
    (onUploadLoad 200 (some { success := false, metadata := none, error := none })
        { initialState with imageUrl := "blob:p", isProcessing := true }).1.messages = [] ∧
    (onUploadLoad 200 (some { success := false, metadata := none, error := none })
        { initialState with imageUrl := "blob:p", isProcessing := true }).1.isProcessing = true ∧
    (onUploadLoad 200 (some { success := false, metadata := none, error := none })
        { initialState with imageUrl := "blob:p", isProcessing := true }).2 = [] := by
  decide

/-- Counterexample to claim C6, on a reachable trace: upload while
connected (lock taken), ask while connected (timer 1 armed), then
clearImage — the lock is still held and the timer still armed, because
clearImage touches neither isProcessing nor the timer ref. -/
theorem clearImage_keeps_lock_and_timer_counterexample :
    ((sendMessage "q" true 1 (uploadImage true "blob:p" initialState).1).1.isProcessing = true ∧
      (sendMessage "q" true 1 (uploadImage true "blob:p" initialState).1).1.responseTimeout =
        some 1) ∧
    (clearImage true
        (sendMessage "q" true 1 (uploadImage true "blob:p" initialState).1).1).1.isProcessing =
      true ∧
    (clearImage true
        (sendMessage "q" true 1 (uploadImage true "blob:p" initialState).1).1).1.responseTimeout =
      some 1 := by
  decide

/-- Amended claim C6: clearImage always (connected or not, idempotently)
clears the active image reference, the stored image path and the
conversation history, and emits a clear_image event exactly when
connected; it leaves the processing lock, any pending timer and the
upload progress untouched (those are only released by terminal events,
timeout or disconnect). -/
theorem clearImage_characterization (isConnected : Bool) (s : ChatState) :
    (clearImage isConnected s).1.imageUrl = "" ∧
    (clearImage isConnected s).1.currentImagePath = none ∧
    (clearImage isConnected s).1.messages = [] ∧
    (clearImage isConnected s).1.isProcessing = s.isProcessing ∧
    (clearImage isConnected s).1.responseTimeout = s.responseTimeout ∧
    (clearImage isConnected s).1.uploadProgress = s.uploadProgress ∧
    (clearImage isConnected s).2 =
      (if isConnected then [OutEvent.clear_image] else []) ∧
    clearImage isConnected (clearImage isConnected s).1 = clearImage isConnected s := by
  unfold clearImage
  cases isConnected <;> simp

/-- Counterexample to claim C7, on a reachable trace: upload while
connected, ask while connected (timer 7 armed, lock true), then an
inbound typing event with status false — the lock goes false while the
question timer is still armed, violating the claimed invariant. -/
theorem typing_breaks_timer_invariant :
    (onTyping false
        (sendMessage "q" true 7 (uploadImage true "blob:p" initialState).1).1).isProcessing =
      false ∧
    (onTyping false
        (sendMessage "q" true 7 (uploadImage true "blob:p" initialState).1).1).responseTimeout =
      some 7 := by
  decide

/-- Amended claim C7: every inbound channel event other than typing
preserves the invariant that the timer handle is non-null only while the
processing lock is true — each of message, metadata_result, error and
disconnect re-establishes it unconditionally by clearing the timer
whenever it releases the lock; the typing event is the exception and can
leave the lock false while the question timer is still armed. -/
theorem terminal_events_preserve_timer_invariant (role content errText : String)
    (analysis : Option String) (s : ChatState) :
    TimerInv (onSocketMessage role content s).1 ∧
    TimerInv (onMetadataResult analysis s).1 ∧
    TimerInv (onSocketError errText s).1 ∧
    TimerInv (onDisconnect s).1 := by
  unfold TimerInv onSocketMessage onMetadataResult onSocketError onDisconnect
    clearPendingTimeout
  cases s.responseTimeout <;> simp

/-- Claim C8: a progress notification with computable length sets
uploadProgress to the rounded percentage, which lies in [0,100] whenever
the bytes sent do not exceed the total; the percentage is monotone in the
bytes sent for a fixed total, so within one attempt it never decreases;
and beginning a new upload resets uploadProgress to 0. -/
theorem upload_progress_properties (l1 l2 total : Nat) (isConnected : Bool)
    (objectUrl : String) (s : ChatState)
    (hpos : 0 < total) (hle : l2 ≤ total) (hmono : l1 ≤ l2) :
    (onUploadProgress true l2 total s).uploadProgress = jsRoundPct l2 total ∧
    jsRoundPct l2 total ≤ 100 ∧
    jsRoundPct l1 total ≤ jsRoundPct l2 total ∧
    (uploadImage isConnected objectUrl s).1.uploadProgress = 0 := by
  refine ⟨by simp [onUploadProgress], ?_, ?_, ?_⟩
  · unfold jsRoundPct
    have h1 : 200 * l2 ≤ 200 * total := Nat.mul_le_mul_left _ hle
    have h3 : (200 * l2 + total) / (2 * total) < 101 :=
      (Nat.div_lt_iff_lt_mul (by omega : 0 < 2 * total)).mpr (by omega)
    omega
  · exact Nat.div_le_div_right (by omega : 200 * l1 + total ≤ 200 * l2 + total)
  · unfold uploadImage
    cases isConnected <;> simp

/-- Witness for claim C8 at concrete byte counts 1 then 2 out of 4. -/
theorem upload_progress_properties_witness :
    (onUploadProgress true 2 4 initialState).uploadProgress = jsRoundPct 2 4 ∧
    jsRoundPct 2 4 ≤ 100 ∧
    jsRoundPct 1 4 ≤ jsRoundPct 2 4 ∧
    (uploadImage true "blob:p" initialState).1.uploadProgress = 0 :=
  upload_progress_properties 1 2 4 true "blob:p" initialState
    (by decide) (by decide) (by decide)
